import Mathlib

/-!
# Verification of the go-nitro off-chain state-channel core

A shallow embedding, in Lean 4, of the parts of the repository that the
specification's claims are about:

* the ledger cranker (`protocols/ledger/ledger.go`),
* the mock store (`client/engine/store`),
* the query status projection (`client/query.go`),
* the force-move transaction creators
  (`nitro-protocol/src/contract/transaction-creators/force-move.ts`),
* the reverse payment proxy (`reverseproxy/proxy.go`),
* the JSON-RPC request validation (`rpc`).

Go functions are translated to pure Lean functions; Go maps become
association lists; fallible Go code returns `Option`/`Except` or an
explicit result inductive with a constructor that marks a Go `panic`.
Machine integers (`*big.Int`, `uint64`) become `ℤ`/`ℕ`.  Repository code
that sits outside the extracted sources (the `channel`, `state`, and
`crypto` packages) is modelled from the specification's own description of
it; every such definition carries a doc comment starting
`Modelled from the spec:`.
-/

namespace GoNitro

/-- `types.Address`: a 20-byte Ethereum address, modelled as a natural
number. -/
abbrev Address : Type := ℕ

/-- `types.Destination`: a 32-byte channel id / external destination,
modelled as a natural number. -/
abbrev Destination : Type := ℕ

/-- A participant's secret signing key. -/
abbrev SecretKey : Type := ℕ

/-- `protocols.ObjectiveId`: a string identifying an objective. -/
abbrev ObjectiveId : Type := String

/-- Modelled from the spec: "ECDSA-style sign/verify" over state hashes is
idealized — a signature is identified with the address of its signer, and a
signature verifies against a participant exactly when it equals that
participant's address. -/
def addressOf (sk : SecretKey) : Address := sk

/-- `outcome.NormalAllocationType` (Go `iota` value 0). -/
def NormalAllocationType : ℕ := 0

/-- `outcome.GuaranteeAllocationType` (Go `iota` value 1). -/
def GuaranteeAllocationType : ℕ := 1

/-- Modelled from the spec: "A Guarantee allocation earmarks funds for a
specific virtual-channel id with a left/right target; its encoded metadata
must round-trip exactly through the outcome's allocation metadata field."
The byte-level ABI encoding produced by `outcome.GuaranteeMetadata.Encode`
is therefore modelled as an injective constructor carrying the
(left, right) pair; `nil` metadata is `Metadata.none`. -/
inductive Metadata : Type
  | none : Metadata
  | guarantee (left right : Destination) : Metadata
deriving DecidableEq, Repr

/-- `outcome.Allocation`: destination, amount, allocation type and opaque
metadata. -/
structure Allocation : Type where
  destination : Destination
  amount : ℤ
  allocationType : ℕ
  metadata : Metadata
deriving DecidableEq, Repr

/-- `outcome.SingleAssetExit`: an asset address together with its ordered
allocations. -/
structure SingleAssetExit : Type where
  asset : Address
  allocations : List Allocation
deriving DecidableEq, Repr

/-- `outcome.Exit`: an ordered list of per-asset allocation lists. -/
abbrev Exit : Type := List SingleAssetExit

/-- `state.State`: one channel round (`channel/state/state.go`, fields as
listed in the spec's data model). -/
structure State : Type where
  chainId : ℤ
  participants : List Address
  channelNonce : ℤ
  appDefinition : Address
  challengeDuration : ℤ
  appData : List ℕ
  outcome : Exit
  turnNum : ℕ
  isFinal : Bool
deriving DecidableEq, Repr

/-- Modelled from the spec: "`Clone()` on a State deep-copies the outcome so
callers can mutate a new round without aliasing."  In a pure embedding a
deep copy is the identity. -/
def State.clone (s : State) : State := s

/-- `state.SignedState`: a state plus the signatures recorded for it.  Under
the idealized signature model a recorded signature is the signer's
address. -/
structure SignedState : Type where
  state : State
  sigs : List Address
deriving DecidableEq, Repr

/-- `state.NewSignedState`: a signed state carrying no signatures yet. -/
def NewSignedState (s : State) : SignedState := ⟨s, []⟩

/-- `SignedState.SignAndAdd`: sign the state with the given secret key and
record the signature.  Modelled from the spec: signing never fails in the
idealized signature model. -/
def SignedState.signAndAdd (ss : SignedState) (sk : SecretKey) : SignedState :=
  { ss with sigs := addressOf sk :: ss.sigs }

/-- Modelled from the spec: "'Supported' means it carries signatures from
*every* participant (full consensus)." -/
def fullySupported (participants : List Address) (ss : SignedState) : Bool :=
  participants.all (fun p => ss.sigs.contains p)

/-- `channel.Channel`: id, participants, my index, and the mapping from turn
number to the best signed state seen for that turn.  Since the map key is
always the stored state's turn number, the map is represented as the list of
its signed states, keyed by `state.turnNum`. -/
structure Channel : Type where
  id : Destination
  participants : List Address
  myIndex : ℕ
  signedStateForTurnNum : List SignedState
deriving DecidableEq, Repr

/-- `channel.TwoPartyLedger`: a `Channel` specialized to two participants. -/
structure TwoPartyLedger : Type where
  channel : Channel
deriving DecidableEq, Repr

/-- Modelled from the spec: `LatestSupportedState()` "returns the
highest-turn-number fully-signed state, or an error if none exists"
(`none` models the error). -/
def bestSupported (participants : List Address) :
    List SignedState → Option SignedState
  | [] => Option.none
  | ss :: rest =>
    match bestSupported participants rest with
    | Option.none => if fullySupported participants ss then some ss else Option.none
    | some b =>
      if fullySupported participants ss && b.state.turnNum < ss.state.turnNum then
        some ss
      else
        some b

/-- `Channel.LatestSupportedState`, via `bestSupported`. -/
def Channel.latestSupportedState (c : Channel) : Option State :=
  (bestSupported c.participants c.signedStateForTurnNum).map SignedState.state

/-- Modelled from the spec: the channel retains, per turn number, "the best
(most-signed) SignedState seen for that turn".  Inserting a signed state
merges signatures with an existing entry for the same state, keeps the
more-signed entry when a different state is already recorded for that turn,
and appends a fresh entry otherwise. -/
def insertSignedState : List SignedState → SignedState → List SignedState
  | [], ss => [ss]
  | e :: rest, ss =>
    if e.state.turnNum = ss.state.turnNum then
      (if e.state = ss.state then
        ⟨e.state, (e.sigs ++ ss.sigs).dedup⟩
      else if ss.sigs.length < e.sigs.length then e else ss) :: rest
    else
      e :: insertSignedState rest ss

/-- Modelled from the spec: `AddSignedState(ss)` "verifies every signature
in `ss` against the channel's participant list; rejects (returns false, no
mutation) if any signature is invalid or if a state with strictly higher
turn number already has full support (no regression)."  `none` models the
`false` return; `some` carries the updated channel. -/
def Channel.addSignedState (c : Channel) (ss : SignedState) : Option Channel :=
  if ¬ ss.sigs.all (fun a => c.participants.contains a) then
    Option.none
  else if c.signedStateForTurnNum.any
      (fun e => fullySupported c.participants e && ss.state.turnNum < e.state.turnNum) then
    Option.none
  else
    some { c with signedStateForTurnNum := insertSignedState c.signedStateForTurnNum ss }

/-- `types.Funds`: a map from asset address to amount.  Go map lookup of a
missing asset yields the zero value, so the map is modelled as a total
function. -/
abbrev Funds : Type := Address → ℤ

/-- `protocols.LedgerRequest`: a request for a ledger channel to be updated
to fund or defund the given destination. -/
structure LedgerRequest : Type where
  objectiveId : ObjectiveId
  ledgerId : Destination
  destination : Destination
  amount : Funds
  left : Destination
  right : Destination

/-- `protocols.Message`: an addressed message carrying a signed state for an
objective.  Modelled from the spec: the engine "sends messages via
MessageService … tagged with an objective id". -/
structure Message : Type where
  recipient : Address
  objectiveId : ObjectiveId
  signedState : SignedState
deriving DecidableEq, Repr

/-- `protocols.SideEffects`: the messages an objective wants sent. -/
structure SideEffects : Type where
  messagesToSend : List Message
deriving DecidableEq, Repr

/-- Modelled from the spec: `CreateSignedStateMessages` produces one message
per participant other than the sender, each carrying the signed state and
the objective id. -/
def CreateSignedStateMessages (oId : ObjectiveId) (ss : SignedState) (myIndex : ℕ) :
    List Message :=
  (ss.state.participants.enum.filter (fun pi => pi.1 ≠ myIndex)).map
    (fun pi => ⟨pi.2, oId, ss⟩)

/-- `ledger.LedgerCranker`: the map of ledgers keyed by channel id (the
`nonce` counter only feeds `CreateLedger`, which no claim is about). -/
structure LedgerCranker : Type where
  ledgers : List (Destination × TwoPartyLedger)

/-- Go map lookup `l.ledgers[id]` (returning the zero value `nil` when the
key is absent, modelled by `none`). -/
def LedgerCranker.lookup (l : LedgerCranker) (id : Destination) :
    Option TwoPartyLedger :=
  (l.ledgers.find? (fun e => e.1 = id)).map Prod.snd

/-- Store `ledger` under `id`, overwriting an existing entry. -/
def LedgerCranker.store (l : LedgerCranker) (id : Destination)
    (ledger : TwoPartyLedger) : LedgerCranker :=
  ⟨(id, ledger) :: l.ledgers.filter (fun e => e.1 ≠ id)⟩

/-- Result of `LedgerCranker.HandleRequest`: the Go function either panics
(missing ledger: nil dereference, no supported state, signing failure, or
`AddSignedState` returning false) or returns side effects after mutating the
stored ledger in place. -/
inductive HandleResult : Type
  | panic : HandleResult
  | ok (cranker : LedgerCranker) (effects : SideEffects) : HandleResult

/-- The next state built by `HandleRequest` (`ledger.go` lines 74–95): the
supported state is cloned, its outcome replaced by a left allocation of 0, a
right allocation of 0, and a guarantee allocation carrying the request's
amount for the zero asset with the encoded (left, right) metadata, and its
turn number incremented by exactly 1. -/
def nextGuaranteeState (supported : State) (request : LedgerRequest) : State :=
  let guarantee := Metadata.guarantee request.left request.right
  let cloned := supported.clone
  let replaced := { cloned with
    outcome := [⟨0, [⟨request.left, 0, NormalAllocationType, Metadata.none⟩,
                     ⟨request.right, 0, NormalAllocationType, Metadata.none⟩,
                     ⟨request.destination, request.amount 0,
                      GuaranteeAllocationType, guarantee⟩]⟩] }
  { replaced with turnNum := replaced.turnNum + 1 }

/-- `LedgerCranker.HandleRequest` (`ledger.go` lines 60–109), translated
clause by clause: look the ledger up, read its latest supported state, build
the guarantee outcome, bump the turn number, sign, add, and return the
signed-state messages as side effects. -/
def LedgerCranker.handleRequest (l : LedgerCranker) (request : LedgerRequest)
    (oId : ObjectiveId) (sk : SecretKey) : HandleResult :=
  match l.lookup request.ledgerId with
  | Option.none => HandleResult.panic
  | some ledger =>
    match ledger.channel.latestSupportedState with
    | Option.none => HandleResult.panic
    | some supported =>
      let nextState := nextGuaranteeState supported request
      let ss := (NewSignedState nextState).signAndAdd sk
      match ledger.channel.addSignedState ss with
      | Option.none => HandleResult.panic
      | some channel' =>
        HandleResult.ok (l.store request.ledgerId ⟨channel'⟩)
          ⟨CreateSignedStateMessages oId ss ledger.channel.myIndex⟩

/-- Result of `LedgerCranker.GetLedger` (`ledger.go` lines 111–119): the Go
function panics when the id is unknown. -/
inductive GetLedgerResult : Type
  | panic : GetLedgerResult
  | ok (ledger : TwoPartyLedger) : GetLedgerResult
deriving DecidableEq, Repr

/-- `LedgerCranker.GetLedger`: return the stored ledger, or panic
(`panic(fmt.Sprintf("Ledger %s not found", ledgerId))`) when absent. -/
def LedgerCranker.getLedger (l : LedgerCranker) (ledgerId : Destination) :
    GetLedgerResult :=
  match l.lookup ledgerId with
  | Option.none => GetLedgerResult.panic
  | some ledger => GetLedgerResult.ok ledger

section BestSupportedLemmas

variable (parts : List Address)

/-- When `bestSupported` finds nothing, no retained signed state is fully
supported. -/
theorem bestSupported_eq_none (l : List SignedState) :
    bestSupported parts l = Option.none →
    ∀ e ∈ l, fullySupported parts e = false := by
  induction l with
  | nil => intro _ e he; cases he
  | cons ss rest ih =>
    intro h e he
    simp only [bestSupported] at h
    cases hb : bestSupported parts rest with
    | none =>
      rw [hb] at h
      by_cases hfs : fullySupported parts ss = true
      · rw [if_pos hfs] at h; cases h
      · rcases List.mem_cons.mp he with rfl | hmem
        · exact Bool.eq_false_iff.mpr hfs
        · exact ih hb e hmem
    | some b =>
      rw [hb] at h
      dsimp only at h
      by_cases hc : (fullySupported parts ss &&
          decide (b.state.turnNum < ss.state.turnNum)) = true
      · rw [if_pos hc] at h; cases h
      · rw [if_neg hc] at h; cases h

/-- A state returned by `bestSupported` is one of the retained states and is
fully supported. -/
theorem bestSupported_mem (l : List SignedState) :
    ∀ b : SignedState, bestSupported parts l = some b →
    b ∈ l ∧ fullySupported parts b = true := by
  induction l with
  | nil => intro b h; cases h
  | cons ss rest ih =>
    intro b h
    simp only [bestSupported] at h
    cases hb : bestSupported parts rest with
    | none =>
      rw [hb] at h
      by_cases hfs : fullySupported parts ss = true
      · rw [if_pos hfs] at h
        injection h with h
        subst h
        exact ⟨List.mem_cons_self _ _, hfs⟩
      · rw [if_neg hfs] at h; cases h
    | some b' =>
      rw [hb] at h
      dsimp only at h
      by_cases hc : (fullySupported parts ss &&
          decide (b'.state.turnNum < ss.state.turnNum)) = true
      · rw [if_pos hc] at h
        injection h with h
        subst h
        rw [Bool.and_eq_true] at hc
        exact ⟨List.mem_cons_self _ _, hc.1⟩
      · rw [if_neg hc] at h
        injection h with h
        subst h
        rcases ih b' hb with ⟨hmem, hfs⟩
        exact ⟨List.mem_cons_of_mem _ hmem, hfs⟩

/-- The state returned by `bestSupported` has the maximal turn number among
the fully supported retained states. -/
theorem bestSupported_max (l : List SignedState) :
    ∀ b : SignedState, bestSupported parts l = some b →
    ∀ e ∈ l, fullySupported parts e = true →
      e.state.turnNum ≤ b.state.turnNum := by
  induction l with
  | nil => intro b _ e he; cases he
  | cons ss rest ih =>
    intro b h e he hfs
    simp only [bestSupported] at h
    cases hb : bestSupported parts rest with
    | none =>
      rw [hb] at h
      by_cases hss : fullySupported parts ss = true
      · rw [if_pos hss] at h
        injection h with h
        subst h
        rcases List.mem_cons.mp he with rfl | hmem
        · exact le_refl _
        · rw [bestSupported_eq_none parts rest hb e hmem] at hfs; cases hfs
      · rw [if_neg hss] at h; cases h
    | some b' =>
      rw [hb] at h
      dsimp only at h
      by_cases hc : (fullySupported parts ss &&
          decide (b'.state.turnNum < ss.state.turnNum)) = true
      · rw [if_pos hc] at h
        injection h with h
        subst h
        rcases List.mem_cons.mp he with rfl | hmem
        · exact le_refl _
        · have hlt : b'.state.turnNum < ss.state.turnNum := by
            rw [Bool.and_eq_true] at hc
            exact of_decide_eq_true hc.2
          exact le_trans (ih b' hb e hmem hfs) (le_of_lt hlt)
      · rw [if_neg hc] at h
        injection h with h
        subst h
        rcases List.mem_cons.mp he with rfl | hmem
        · by_contra hlt
          push_neg at hlt
          refine hc ?_
          rw [Bool.and_eq_true]
          exact ⟨hfs, decide_eq_true hlt⟩
        · exact ih b' hb e hmem hfs

end BestSupportedLemmas

/-- The signed state produced by `HandleRequest` for a given supported state
and request: the guarantee next-state, freshly signed by the caller. -/
def proposalSignedState (supported : State) (request : LedgerRequest)
    (sk : SecretKey) : SignedState :=
  (NewSignedState (nextGuaranteeState supported request)).signAndAdd sk

/-- Master specification of `LedgerCranker.HandleRequest` on a ledger with a
latest supported state and a caller whose key belongs to a participant:
shared by the claims about the ledger cranker. -/
theorem handleRequest_spec
    (l : LedgerCranker) (request : LedgerRequest) (oId : ObjectiveId)
    (sk : SecretKey) (ledger : TwoPartyLedger) (supported : State)
    (hled : l.lookup request.ledgerId = some ledger)
    (hsupp : ledger.channel.latestSupportedState = some supported)
    (hkey : ledger.channel.participants.contains (addressOf sk) = true) :
    (nextGuaranteeState supported request).outcome =
      [⟨0, [⟨request.left, 0, NormalAllocationType, Metadata.none⟩,
            ⟨request.right, 0, NormalAllocationType, Metadata.none⟩,
            ⟨request.destination, request.amount 0, GuaranteeAllocationType,
             Metadata.guarantee request.left request.right⟩]⟩] ∧
    (nextGuaranteeState supported request).turnNum = supported.turnNum + 1 ∧
    (proposalSignedState supported request sk).sigs = [addressOf sk] ∧
    ∃ channel',
      ledger.channel.addSignedState (proposalSignedState supported request sk)
        = some channel' ∧
      l.handleRequest request oId sk =
        HandleResult.ok (l.store request.ledgerId ⟨channel'⟩)
          ⟨CreateSignedStateMessages oId (proposalSignedState supported request sk)
            ledger.channel.myIndex⟩ := by
  obtain ⟨b, hb, hbs⟩ : ∃ b, bestSupported ledger.channel.participants
      ledger.channel.signedStateForTurnNum = some b ∧ b.state = supported := by
    unfold Channel.latestSupportedState at hsupp
    cases hbb : bestSupported ledger.channel.participants
        ledger.channel.signedStateForTurnNum with
    | none => rw [hbb] at hsupp; cases hsupp
    | some b => rw [hbb] at hsupp; exact ⟨b, rfl, Option.some.inj hsupp⟩
  have hmax := bestSupported_max ledger.channel.participants
    ledger.channel.signedStateForTurnNum b hb
  have hturn : (nextGuaranteeState supported request).turnNum
      = supported.turnNum + 1 := rfl
  have hsig : (proposalSignedState supported request sk).sigs
      = [addressOf sk] := rfl
  have hall : ((proposalSignedState supported request sk).sigs.all
      fun a => ledger.channel.participants.contains a) = true := by
    rw [hsig]
    simp only [List.all_cons, List.all_nil, Bool.and_true]
    exact hkey
  have hany : (ledger.channel.signedStateForTurnNum.any
      fun e => fullySupported ledger.channel.participants e &&
        decide ((proposalSignedState supported request sk).state.turnNum
          < e.state.turnNum)) = false := by
    rw [List.any_eq_false]
    intro e he
    rw [Bool.and_eq_true]
    rintro ⟨hfs, hlt⟩
    have hle := hmax e he hfs
    rw [hbs] at hle
    have hlt' := of_decide_eq_true hlt
    have : (proposalSignedState supported request sk).state.turnNum
        = supported.turnNum + 1 := hturn
    omega
  have hadd : ledger.channel.addSignedState (proposalSignedState supported request sk)
      = some { ledger.channel with
          signedStateForTurnNum := insertSignedState
            ledger.channel.signedStateForTurnNum
            (proposalSignedState supported request sk) } := by
    unfold Channel.addSignedState
    rw [if_neg (not_not_intro hall), if_neg (by simp [hany])]
  refine ⟨rfl, hturn, hsig, _, hadd, ?_⟩
  simp only [LedgerCranker.handleRequest, hled, hsupp]
  have hadd' := hadd
  unfold proposalSignedState at hadd'
  rw [hadd']
  rfl

/-- C1: for every add-guarantee ledger request whose ledger channel has a
latest supported state (and whose caller's key belongs to a channel
participant), `LedgerCranker.HandleRequest` produces a next state whose
outcome is exactly three allocations — left allocation of amount 0, right
allocation of amount 0, and a guarantee allocation carrying the request's
amount whose metadata encodes the request's (left, right) pair — whose turn
number is the supported state's turn number plus exactly 1; it signs that
state with the caller's secret key, adds it to the channel, and returns side
effects containing the corresponding signed-state messages. -/
theorem handleRequest_addGuarantee
    (l : LedgerCranker) (request : LedgerRequest) (oId : ObjectiveId)
    (sk : SecretKey) (ledger : TwoPartyLedger) (supported : State)
    (hled : l.lookup request.ledgerId = some ledger)
    (hsupp : ledger.channel.latestSupportedState = some supported)
    (hkey : ledger.channel.participants.contains (addressOf sk) = true) :
    (nextGuaranteeState supported request).outcome =
      [⟨0, [⟨request.left, 0, NormalAllocationType, Metadata.none⟩,
            ⟨request.right, 0, NormalAllocationType, Metadata.none⟩,
            ⟨request.destination, request.amount 0, GuaranteeAllocationType,
             Metadata.guarantee request.left request.right⟩]⟩] ∧
    (nextGuaranteeState supported request).turnNum = supported.turnNum + 1 ∧
    (proposalSignedState supported request sk).sigs = [addressOf sk] ∧
    ∃ channel',
      ledger.channel.addSignedState (proposalSignedState supported request sk)
        = some channel' ∧
      l.handleRequest request oId sk =
        HandleResult.ok (l.store request.ledgerId ⟨channel'⟩)
          ⟨CreateSignedStateMessages oId (proposalSignedState supported request sk)
            ledger.channel.myIndex⟩ :=
  handleRequest_spec l request oId sk ledger supported hled hsupp hkey

/-- Ledger-channel fixture: the fully signed state at turn 1 holding 5/5 for
the participants with addresses 1 and 2. -/
def exBaseState : State :=
  { chainId := 9001, participants := [1, 2], channelNonce := 0,
    appDefinition := 0, challengeDuration := 45, appData := [],
    outcome := [⟨0, [⟨11, 5, NormalAllocationType, Metadata.none⟩,
                     ⟨12, 5, NormalAllocationType, Metadata.none⟩]⟩],
    turnNum := 1, isFinal := false }

/-- Ledger-channel fixture: a two-party ledger whose only retained state is
`exBaseState`, signed by both participants. -/
def exLedger : TwoPartyLedger := ⟨⟨10, [1, 2], 0, [⟨exBaseState, [2, 1]⟩]⟩⟩

/-- Cranker fixture holding `exLedger` under id 10. -/
def exCranker : LedgerCranker := ⟨[(10, exLedger)]⟩

/-- Request fixture: fund virtual channel 100 with 7 out of ledger 10. -/
def exRequest : LedgerRequest :=
  { objectiveId := "VirtualFund-0xaa", ledgerId := 10, destination := 100,
    amount := fun _ => 7, left := 1001, right := 1002 }

/-- Witness for C1: the add-guarantee theorem applied to the concrete
fixtures. -/
theorem handleRequest_addGuarantee_witness :
    exCranker.lookup exRequest.ledgerId = some exLedger ∧
    exLedger.channel.latestSupportedState = some exBaseState ∧
    ((nextGuaranteeState exBaseState exRequest).outcome =
      [⟨0, [⟨exRequest.left, 0, NormalAllocationType, Metadata.none⟩,
            ⟨exRequest.right, 0, NormalAllocationType, Metadata.none⟩,
            ⟨exRequest.destination, exRequest.amount 0, GuaranteeAllocationType,
             Metadata.guarantee exRequest.left exRequest.right⟩]⟩] ∧
     (nextGuaranteeState exBaseState exRequest).turnNum = exBaseState.turnNum + 1 ∧
     (proposalSignedState exBaseState exRequest 1).sigs = [addressOf 1] ∧
     ∃ channel',
       exLedger.channel.addSignedState (proposalSignedState exBaseState exRequest 1)
         = some channel' ∧
       exCranker.handleRequest exRequest "VirtualFund-0xaa" 1 =
         HandleResult.ok (exCranker.store exRequest.ledgerId ⟨channel'⟩)
           ⟨CreateSignedStateMessages "VirtualFund-0xaa"
             (proposalSignedState exBaseState exRequest 1)
             exLedger.channel.myIndex⟩) :=
  ⟨rfl, rfl,
    handleRequest_addGuarantee exCranker exRequest "VirtualFund-0xaa" 1 exLedger
      exBaseState rfl rfl (by decide)⟩

/-- Extract, from a `HandleRequest` result, the outcome of the state carried
by the first emitted message (the outcome of the newly proposed round). -/
def proposedOutcome : HandleResult → Option Exit
  | HandleResult.panic => Option.none
  | HandleResult.ok _ eff =>
    (eff.messagesToSend.head?).map (fun m => m.signedState.state.outcome)

/-- Extract, from a `HandleRequest` result, the retained signed states of the
ledger stored under `id`. -/
def resultLedgerStates (r : HandleResult) (id : Destination) :
    Option (List SignedState) :=
  match r with
  | HandleResult.panic => Option.none
  | HandleResult.ok c _ => (c.lookup id).map (fun l => l.channel.signedStateForTurnNum)

/-- Fixture: a ledger whose supported state at turn 2 already carries a
guarantee of 2 for virtual channel 100 next to plain allocations 3/5. -/
def exGuaranteeState : State :=
  { chainId := 9001, participants := [1, 2], channelNonce := 0,
    appDefinition := 0, challengeDuration := 45, appData := [],
    outcome := [⟨0, [⟨11, 3, NormalAllocationType, Metadata.none⟩,
                     ⟨12, 5, NormalAllocationType, Metadata.none⟩,
                     ⟨100, 2, GuaranteeAllocationType,
                      Metadata.guarantee 1001 1002⟩]⟩],
    turnNum := 2, isFinal := false }

/-- Fixture: cranker holding the guarantee-bearing ledger under id 10. -/
def exCrankerG : LedgerCranker :=
  ⟨[(10, ⟨⟨10, [1, 2], 0, [⟨exGuaranteeState, [1, 2]⟩]⟩⟩)]⟩

/-- Fixture: the request to defund virtual channel 100 (remove its
guarantee of 2 and restore the earmarked amounts). -/
def exRemoveRequest : LedgerRequest :=
  { objectiveId := "VirtualDefund-0xaa", ledgerId := 10, destination := 100,
    amount := fun _ => 2, left := 1001, right := 1002 }

/-- Counterexample for C3: handling the remove-guarantee request does not
remove the guarantee — the proposed outcome still contains a guarantee
allocation (type `GuaranteeAllocationType`) for channel 100, and the left
and right allocations are 0 rather than the restored amounts 3 + its share
and 5 + its share. -/
theorem handleRequest_remove_cex :
    proposedOutcome (exCrankerG.handleRequest exRemoveRequest "VirtualDefund-0xaa" 1)
      = some [⟨0, [⟨1001, 0, NormalAllocationType, Metadata.none⟩,
                   ⟨1002, 0, NormalAllocationType, Metadata.none⟩,
                   ⟨100, 2, GuaranteeAllocationType,
                    Metadata.guarantee 1001 1002⟩]⟩] := by decide

/-- C3 (amended): `HandleRequest` treats every request — remove-guarantee
requests included — as an addition: the proposed outcome is always the
replacement {left-allocation(0), right-allocation(0),
guarantee-allocation(amount)}; no guarantee is removed and no earmarked
amounts are restored. -/
theorem handleRequest_neverRemovesGuarantee
    (l : LedgerCranker) (request : LedgerRequest) (oId : ObjectiveId)
    (sk : SecretKey) (ledger : TwoPartyLedger) (supported : State)
    (hled : l.lookup request.ledgerId = some ledger)
    (hsupp : ledger.channel.latestSupportedState = some supported)
    (hkey : ledger.channel.participants.contains (addressOf sk) = true) :
    (proposalSignedState supported request sk).state.outcome =
      [⟨0, [⟨request.left, 0, NormalAllocationType, Metadata.none⟩,
            ⟨request.right, 0, NormalAllocationType, Metadata.none⟩,
            ⟨request.destination, request.amount 0, GuaranteeAllocationType,
             Metadata.guarantee request.left request.right⟩]⟩] ∧
    ∃ channel',
      l.handleRequest request oId sk =
        HandleResult.ok (l.store request.ledgerId ⟨channel'⟩)
          ⟨CreateSignedStateMessages oId (proposalSignedState supported request sk)
            ledger.channel.myIndex⟩ := by
  obtain ⟨h1, _, _, channel', _, h5⟩ :=
    handleRequest_spec l request oId sk ledger supported hled hsupp hkey
  exact ⟨h1, channel', h5⟩

/-- Witness for C3's amended claim at the remove-request fixture. -/
theorem handleRequest_neverRemovesGuarantee_witness :
    (proposalSignedState exGuaranteeState exRemoveRequest 1).state.outcome =
      [⟨0, [⟨exRemoveRequest.left, 0, NormalAllocationType, Metadata.none⟩,
            ⟨exRemoveRequest.right, 0, NormalAllocationType, Metadata.none⟩,
            ⟨exRemoveRequest.destination, exRemoveRequest.amount 0,
             GuaranteeAllocationType,
             Metadata.guarantee exRemoveRequest.left exRemoveRequest.right⟩]⟩] ∧
    ∃ channel',
      exCrankerG.handleRequest exRemoveRequest "VirtualDefund-0xaa" 1 =
        HandleResult.ok (exCrankerG.store exRemoveRequest.ledgerId ⟨channel'⟩)
          ⟨CreateSignedStateMessages "VirtualDefund-0xaa"
            (proposalSignedState exGuaranteeState exRemoveRequest 1) 0⟩ :=
  handleRequest_neverRemovesGuarantee exCrankerG exRemoveRequest
    "VirtualDefund-0xaa" 1 ⟨⟨10, [1, 2], 0, [⟨exGuaranteeState, [1, 2]⟩]⟩⟩
    exGuaranteeState rfl rfl (by decide)

/-- Fixture: a second add-guarantee request for the same ledger, arriving
before the first proposal has been countersigned. -/
def exRequest2 : LedgerRequest :=
  { objectiveId := "VirtualFund-0xbb", ledgerId := 10, destination := 200,
    amount := fun _ => 4, left := 1001, right := 1002 }

/-- The result of handling `exRequest2` right after `exRequest`, with no
countersignature in between. -/
def secondResult : HandleResult :=
  match exCranker.handleRequest exRequest "VirtualFund-0xaa" 1 with
  | HandleResult.panic => HandleResult.panic
  | HandleResult.ok c _ => c.handleRequest exRequest2 "VirtualFund-0xbb" 1

/-- Counterexample for C2: the second request for the same ledger, issued
before the first proposed round is countersigned, is neither queued nor
rejected — it is processed immediately, and the resulting ledger retains
only the second proposal at turn 2: the first proposal's guarantee for
channel 100 has been silently clobbered, so the turn-number-indexed
guarantee bookkeeping is not preserved. -/
theorem handleRequest_secondRequest_cex :
    proposedOutcome secondResult
      = some [⟨0, [⟨1001, 0, NormalAllocationType, Metadata.none⟩,
                   ⟨1002, 0, NormalAllocationType, Metadata.none⟩,
                   ⟨200, 4, GuaranteeAllocationType,
                    Metadata.guarantee 1001 1002⟩]⟩] ∧
    resultLedgerStates secondResult 10
      = some [⟨exBaseState, [2, 1]⟩,
              proposalSignedState exBaseState exRequest2 1] := by decide

/-- C2 (amended): `HandleRequest` enforces no single-proposal invariant —
even when an uncountersigned proposal at turn N+1 is already outstanding in
the ledger channel, a further request for the same ledger is processed
immediately: the cranker signs and attempts to add another state at the same
turn N+1 and returns its signed-state messages, rather than queueing or
rejecting the request. -/
theorem handleRequest_noSingleProposalCheck
    (l : LedgerCranker) (request : LedgerRequest) (oId : ObjectiveId)
    (sk : SecretKey) (ledger : TwoPartyLedger) (supported : State)
    (hled : l.lookup request.ledgerId = some ledger)
    (hsupp : ledger.channel.latestSupportedState = some supported)
    (hkey : ledger.channel.participants.contains (addressOf sk) = true)
    (_houtstanding : ∃ e ∈ ledger.channel.signedStateForTurnNum,
      e.state.turnNum = supported.turnNum + 1) :
    (proposalSignedState supported request sk).state.turnNum
      = supported.turnNum + 1 ∧
    ∃ channel',
      l.handleRequest request oId sk =
        HandleResult.ok (l.store request.ledgerId ⟨channel'⟩)
          ⟨CreateSignedStateMessages oId (proposalSignedState supported request sk)
            ledger.channel.myIndex⟩ := by
  obtain ⟨_, h2, _, channel', _, h5⟩ :=
    handleRequest_spec l request oId sk ledger supported hled hsupp hkey
  exact ⟨h2, channel', h5⟩

/-- Fixture: the ledger of `exCranker` with the (uncountersigned) first
proposal for channel 100 outstanding at turn 2. -/
def exLedgerOutstanding : TwoPartyLedger :=
  ⟨⟨10, [1, 2], 0, [⟨exBaseState, [2, 1]⟩, proposalSignedState exBaseState exRequest 1]⟩⟩

/-- Fixture: cranker holding `exLedgerOutstanding`. -/
def exCrankerOutstanding : LedgerCranker := ⟨[(10, exLedgerOutstanding)]⟩

/-- Witness for C2's amended claim: with the first proposal outstanding, the
second request is still processed immediately at the same turn number. -/
theorem handleRequest_noSingleProposalCheck_witness :
    (proposalSignedState exBaseState exRequest2 1).state.turnNum
      = exBaseState.turnNum + 1 ∧
    ∃ channel',
      exCrankerOutstanding.handleRequest exRequest2 "VirtualFund-0xbb" 1 =
        HandleResult.ok (exCrankerOutstanding.store exRequest2.ledgerId ⟨channel'⟩)
          ⟨CreateSignedStateMessages "VirtualFund-0xbb"
            (proposalSignedState exBaseState exRequest2 1)
            exLedgerOutstanding.channel.myIndex⟩ :=
  handleRequest_noSingleProposalCheck exCrankerOutstanding exRequest2
    "VirtualFund-0xbb" 1 exLedgerOutstanding exBaseState rfl (by decide)
    (by decide) ⟨proposalSignedState exBaseState exRequest 1, by decide, by decide⟩

/-- The objective variant tags of the spec's data model. -/
inductive ObjectiveVariant : Type
  | directFund
  | directDefund
  | virtualFund
  | virtualDefund
deriving DecidableEq, Repr

/-- Modelled from the spec: an objective id is "a deterministic string
derived from participants/channel id and a type prefix"; the DirectFund
prefix. -/
def DirectFundObjectivePrefix : String := "DirectFunding-"

/-- Modelled from the spec: the VirtualFund objective-id type prefix. -/
def VirtualFundObjectivePrefix : String := "VirtualFund-"

/-- String prefix test on the character lists (structurally recursive, so
concrete instances evaluate inside proofs). -/
def strHasPrefix (p s : String) : Bool :=
  p.data.isPrefixOf s.data

/-- `directfund.IsDirectFundObjective`: does the id carry the DirectFund
prefix? -/
def IsDirectFundObjective (id : ObjectiveId) : Bool :=
  strHasPrefix DirectFundObjectivePrefix id

/-- `virtualfund.IsVirtualFundObjective`: does the id carry the VirtualFund
prefix? -/
def IsVirtualFundObjective (id : ObjectiveId) : Bool :=
  strHasPrefix VirtualFundObjectivePrefix id

/-- The objectives the mock store can hold: a DirectFund objective
referencing its funded channel `c`, or a VirtualFund objective referencing
the virtual channel `v` and its optional left/right ledgers.  (The store's
`decodeObjective` knows no other variants.) -/
inductive Objective : Type
  | directFund (id : ObjectiveId) (status : ℕ) (c : Destination) : Objective
  | virtualFund (id : ObjectiveId) (status : ℕ) (v : Destination)
      (toMyLeft toMyRight : Option Destination) : Objective
deriving DecidableEq, Repr

/-- The variant tag of a stored objective. -/
def Objective.variant : Objective → ObjectiveVariant
  | Objective.directFund _ _ _ => ObjectiveVariant.directFund
  | Objective.virtualFund _ _ _ _ _ => ObjectiveVariant.virtualFund

/-- `Objective.Id()`. -/
def Objective.objId : Objective → ObjectiveId
  | Objective.directFund id _ _ => id
  | Objective.virtualFund id _ _ _ _ => id

/-- `Objective.Channels()`: the ids of the channels the objective
references (`C` for DirectFund; `V` plus the non-nil ledgers for
VirtualFund). -/
def Objective.channelIds : Objective → List Destination
  | Objective.directFund _ _ c => [c]
  | Objective.virtualFund _ _ v l r => [v] ++ l.toList ++ r.toList

/-- The JSON payload stored for an objective: Go's `encoding/json`
unmarshals any JSON object into any target struct, zero-filling missing
fields and ignoring unknown ones, so the payload is modelled as the union
of the two marshalling structs' fields, each channel reference optional so
that an absent field decodes to the zero value. -/
structure ObjectiveJSON : Type where
  status : ℕ
  cField : Option Destination
  vField : Option Destination
  leftField : Option Destination
  rightField : Option Destination
deriving DecidableEq, Repr

/-- `Objective.MarshalJSON`: each variant serializes its own fields. -/
def Objective.marshal : Objective → ObjectiveJSON
  | Objective.directFund _ st c => ⟨st, some c, Option.none, Option.none, Option.none⟩
  | Objective.virtualFund _ st v l r => ⟨st, Option.none, some v, l, r⟩

/-- `directfund.Objective.UnmarshalJSON`: reads the DirectFund fields out of
the payload; a missing channel reference yields the zero `Destination`. -/
def directfundUnmarshal (id : ObjectiveId) (j : ObjectiveJSON) : Objective :=
  Objective.directFund id j.status (j.cField.getD 0)

/-- `store.decodeObjective` (`part_002` lines 190–204), faithful to the
source: the `IsVirtualFundObjective` branch also constructs a
`directfund.Objective` (`vfo := directfund.Objective{}`) and unmarshals the
payload into it. -/
def decodeObjective (id : ObjectiveId) (data : ObjectiveJSON) :
    Except String Objective :=
  if IsDirectFundObjective id then
    Except.ok (directfundUnmarshal id data)
  else if IsVirtualFundObjective id then
    Except.ok (directfundUnmarshal id data)
  else
    Except.error ("objective id " ++ id ++ " does not correspond to a known Objective type")

/-- `channel.Channel` as the store retains it: only the id matters to the
claims about the store. -/
structure ChannelRec : Type where
  id : Destination
deriving DecidableEq, Repr

/-- `store.MockStore`: objectives serialized by id, channels by id, plus the
engine's key and address. -/
structure MockStore : Type where
  objectives : List (ObjectiveId × ObjectiveJSON)
  channels : List (Destination × ChannelRec)
  key : SecretKey
  address : Address
deriving DecidableEq, Repr

/-- Go map lookup in `ms.objectives`. -/
def MockStore.lookupObjective (ms : MockStore) (id : ObjectiveId) :
    Option ObjectiveJSON :=
  (ms.objectives.find? (fun e => e.1 = id)).map Prod.snd

/-- Go map lookup in `ms.channels`. -/
def MockStore.lookupChannel (ms : MockStore) (id : Destination) :
    Option ChannelRec :=
  (ms.channels.find? (fun e => e.1 = id)).map Prod.snd

/-- `MockStore.getChannelById` (`part_002` lines 91–99): the stored channel,
or an error when the id is unknown. -/
def MockStore.getChannelById (ms : MockStore) (id : Destination) :
    Except String ChannelRec :=
  match ms.lookupChannel id with
  | some ch => Except.ok ch
  | Option.none => Except.error ("channel " ++ toString id ++ " not found")

/-- `MockStore.SetChannel`: store the channel under its id. -/
def MockStore.setChannel (ms : MockStore) (ch : ChannelRec) : MockStore :=
  { ms with channels := (ch.id, ch) :: ms.channels.filter (fun e => e.1 ≠ ch.id) }

/-- `MockStore.SetObjective` (`part_002` lines 64–82): serialize the
objective under its id, then store every channel it references. -/
def MockStore.setObjective (ms : MockStore) (obj : Objective) : MockStore :=
  let ms' := { ms with
    objectives := (obj.objId, obj.marshal) ::
      ms.objectives.filter (fun e => e.1 ≠ obj.objId) }
  obj.channelIds.foldl (fun acc cid => acc.setChannel ⟨cid⟩) ms'

/-- `MockStore.populateChannelData` (`part_002` lines 141–186): re-attach
the stored channel data to the decoded objective, failing when a referenced
channel is missing. -/
def MockStore.populateChannelData (ms : MockStore) (obj : Objective) :
    Except String Objective :=
  match obj with
  | Objective.directFund id st c =>
    match ms.getChannelById c with
    | Except.ok ch => Except.ok (Objective.directFund id st ch.id)
    | Except.error e =>
      Except.error ("error retrieving channel data for objective " ++ id ++ ": " ++ e)
  | Objective.virtualFund id st v l r =>
    match ms.getChannelById v with
    | Except.error e =>
      Except.error ("error retrieving virtual channel data for objective " ++ id ++ ": " ++ e)
    | Except.ok vch =>
      match l with
      | some lid =>
        (match ms.getChannelById lid with
        | Except.error e =>
          Except.error ("error retrieving left ledger channel data for objective " ++ id ++ ": " ++ e)
        | Except.ok lch =>
          match r with
          | some rid =>
            (match ms.getChannelById rid with
            | Except.error e =>
              Except.error ("error retrieving right ledger channel data for objective " ++ id ++ ": " ++ e)
            | Except.ok rch =>
              Except.ok (Objective.virtualFund id st vch.id (some lch.id) (some rch.id)))
          | Option.none =>
            Except.ok (Objective.virtualFund id st vch.id (some lch.id) Option.none))
      | Option.none =>
        match r with
        | some rid =>
          (match ms.getChannelById rid with
          | Except.error e =>
            Except.error ("error retrieving right ledger channel data for objective " ++ id ++ ": " ++ e)
          | Except.ok rch =>
            Except.ok (Objective.virtualFund id st vch.id Option.none (some rch.id)))
        | Option.none =>
          Except.ok (Objective.virtualFund id st vch.id Option.none Option.none)

/-- `MockStore.GetObjectiveById` (`part_002` lines 41–62): look the payload
up, decode it, then populate channel data; each failing step surfaces an
error. -/
def MockStore.getObjectiveById (ms : MockStore) (id : ObjectiveId) :
    Except String Objective :=
  match ms.lookupObjective id with
  | Option.none =>
    Except.error ("no objective with id " ++ id ++ " exists in storage")
  | some data =>
    match decodeObjective id data with
    | Except.error e =>
      Except.error ("error decoding objective " ++ id ++ ": " ++ e)
    | Except.ok obj =>
      match ms.populateChannelData obj with
      | Except.error e =>
        Except.error ("error populating channel data for objective " ++ id ++ ": " ++ e)
      | Except.ok obj' => Except.ok obj'

/-- The success value of an `Except String Objective`, if any. -/
def okValue : Except String Objective → Option Objective
  | Except.ok o => some o
  | Except.error _ => Option.none

/-- A cranker holding no ledgers. -/
def emptyCranker : LedgerCranker := ⟨[]⟩

/-- Counterexample for C4: `LedgerCranker.GetLedger` on an id with no stored
ledger does not return an error to the caller — it panics
(`panic(fmt.Sprintf("Ledger %s not found", ledgerId))`), and
`HandleRequest` on the same unknown id panics as well (nil dereference of
the missing ledger). -/
theorem getLedger_unknown_panics_cex :
    emptyCranker.getLedger 5 = GetLedgerResult.panic ∧
    emptyCranker.handleRequest exRequest "VirtualFund-0xaa" 1
      = HandleResult.panic := by
  constructor
  · rfl
  · rfl

/-- C4 (amended): unknown ids referenced by a request are surfaced to the
caller as errors with no mutation by the store (`GetObjectiveById`,
`getChannelById`), but the ledger cranker panics instead:
`GetLedger` and `HandleRequest` on an id with no stored ledger panic. -/
theorem notFound_behaviour :
    (∀ (ms : MockStore) (id : ObjectiveId), ms.lookupObjective id = Option.none →
      ms.getObjectiveById id
        = Except.error ("no objective with id " ++ id ++ " exists in storage")) ∧
    (∀ (ms : MockStore) (id : Destination), ms.lookupChannel id = Option.none →
      ms.getChannelById id
        = Except.error ("channel " ++ toString id ++ " not found")) ∧
    (∀ (l : LedgerCranker) (id : Destination), l.lookup id = Option.none →
      l.getLedger id = GetLedgerResult.panic) ∧
    (∀ (l : LedgerCranker) (request : LedgerRequest) (oId : ObjectiveId)
        (sk : SecretKey), l.lookup request.ledgerId = Option.none →
      l.handleRequest request oId sk = HandleResult.panic) := by
  refine ⟨?_, ?_, ?_, ?_⟩
  · intro ms id h
    unfold MockStore.getObjectiveById
    rw [h]
  · intro ms id h
    unfold MockStore.getChannelById
    rw [h]
  · intro l id h
    unfold LedgerCranker.getLedger
    rw [h]
  · intro l request oId sk h
    unfold LedgerCranker.handleRequest
    rw [h]

/-- A store holding nothing. -/
def emptyStore : MockStore := ⟨[], [], 99, 99⟩

/-- Witness for C4's amended claim at concrete unknown ids. -/
theorem notFound_behaviour_witness :
    emptyStore.getObjectiveById "DirectFunding-0x01"
      = Except.error "no objective with id DirectFunding-0x01 exists in storage" ∧
    emptyStore.getChannelById 3 = Except.error "channel 3 not found" ∧
    emptyCranker.getLedger 10 = GetLedgerResult.panic ∧
    emptyCranker.handleRequest exRequest2 "VirtualFund-0xbb" 2
      = HandleResult.panic :=
  ⟨notFound_behaviour.1 emptyStore "DirectFunding-0x01" rfl,
   notFound_behaviour.2.1 emptyStore 3 rfl,
   notFound_behaviour.2.2.1 emptyCranker 10 rfl,
   notFound_behaviour.2.2.2 emptyCranker exRequest2 "VirtualFund-0xbb" 2 rfl⟩

/-- Fixture: a VirtualFund objective for virtual channel 7. -/
def exVfObjective : Objective :=
  Objective.virtualFund "VirtualFund-0x07" 1 7 Option.none Option.none

/-- Fixture: the store right after `SetObjective(exVfObjective)`. -/
def exStoreWithVf : MockStore := emptyStore.setObjective exVfObjective

/-- C6 exhibit (code bug): storing a VirtualFund objective and fetching it
back is not variant-preserving.  `decodeObjective`'s
`IsVirtualFundObjective` branch constructs a `directfund.Objective`, so the
stored VirtualFund payload decodes to a DirectFund-variant objective whose
channel reference is the zero value; `GetObjectiveById` consequently fails
to populate channel data and returns an error instead of the stored
objective.  Ids of the defund variants decode to no objective at all. -/
theorem setGet_virtualFund_not_variant_preserving :
    okValue (decodeObjective "VirtualFund-0x07" exVfObjective.marshal)
      = some (Objective.directFund "VirtualFund-0x07" 1 0) ∧
    (Objective.directFund "VirtualFund-0x07" 1 0).variant ≠ exVfObjective.variant ∧
    okValue (exStoreWithVf.getObjectiveById "VirtualFund-0x07") = Option.none ∧
    okValue (decodeObjective "DirectDefunding-0x01" exVfObjective.marshal)
      = Option.none := by
  refine ⟨by decide, by decide, by decide, by decide⟩

/-- `client.ChannelStatus` (`query.go` lines 17–23). -/
inductive ChannelStatus : Type
  | Proposed
  | Ready
  | Closing
  | Complete
deriving DecidableEq, Repr

/-- My own address: `c.Participants[c.MyIndex]`. -/
def Channel.myAddress (c : Channel) : Address :=
  c.participants.getD c.myIndex 0

/-- Modelled from the spec: a final state "signed by me" — some retained
signed state is final and carries my signature. -/
def Channel.finalSignedByMe (c : Channel) : Bool :=
  c.signedStateForTurnNum.any
    (fun ss => ss.state.isFinal && ss.sigs.contains c.myAddress)

/-- Modelled from the spec: "Complete if a final state is both signed by me
and fully supported" — some retained final state has full support. -/
def Channel.finalCompleted (c : Channel) : Bool :=
  c.signedStateForTurnNum.any
    (fun ss => ss.state.isFinal && fullySupported c.participants ss)

/-- The post-fund round's turn number (pre-fund is turn 0, post-fund is
turn 1 in the funding protocol). -/
def PostFundTurnNum : ℕ := 1

/-- Modelled from the spec: the post-fund round is complete when the turn-1
state has full support. -/
def Channel.postFundComplete (c : Channel) : Bool :=
  c.signedStateForTurnNum.any
    (fun ss => ss.state.turnNum = PostFundTurnNum && fullySupported c.participants ss)

/-- `client.getStatusFromChannel` (`query.go` lines 42–54), translated
branch for branch: the final-state checks come first, post-fund
incompleteness is only consulted afterwards. -/
def getStatusFromChannel (c : Channel) : ChannelStatus :=
  if c.finalSignedByMe then
    if c.finalCompleted then ChannelStatus.Complete else ChannelStatus.Closing
  else if ¬ c.postFundComplete then ChannelStatus.Proposed
  else ChannelStatus.Ready

/-- Propositional reading of `Channel.finalSignedByMe`. -/
def FinalSignedByMeP (c : Channel) : Prop :=
  ∃ ss ∈ c.signedStateForTurnNum, ss.state.isFinal = true ∧ c.myAddress ∈ ss.sigs

/-- Propositional reading of `Channel.finalCompleted`. -/
def FinalCompletedP (c : Channel) : Prop :=
  ∃ ss ∈ c.signedStateForTurnNum,
    ss.state.isFinal = true ∧ fullySupported c.participants ss = true

/-- Propositional reading of `Channel.postFundComplete`. -/
def PostFundCompleteP (c : Channel) : Prop :=
  ∃ ss ∈ c.signedStateForTurnNum,
    ss.state.turnNum = PostFundTurnNum ∧ fullySupported c.participants ss = true

theorem finalSignedByMe_iff (c : Channel) :
    c.finalSignedByMe = true ↔ FinalSignedByMeP c := by
  simp [Channel.finalSignedByMe, FinalSignedByMeP, List.any_eq_true,
    Bool.and_eq_true, List.elem_iff]

theorem finalCompleted_iff (c : Channel) :
    c.finalCompleted = true ↔ FinalCompletedP c := by
  simp [Channel.finalCompleted, FinalCompletedP, List.any_eq_true,
    Bool.and_eq_true]

theorem postFundComplete_iff (c : Channel) :
    c.postFundComplete = true ↔ PostFundCompleteP c := by
  simp [Channel.postFundComplete, PostFundCompleteP, List.any_eq_true,
    Bool.and_eq_true]

/-- Fixture for C5: a channel whose post-fund round is incomplete but where
a final state (turn 5) is already signed by me: pre-fund fully signed, no
turn-1 state at all. -/
def exClosingChannel : Channel :=
  ⟨20, [1, 2], 0,
   [⟨{ chainId := 9001, participants := [1, 2], channelNonce := 0,
       appDefinition := 0, challengeDuration := 45, appData := [],
       outcome := [⟨0, [⟨11, 5, NormalAllocationType, Metadata.none⟩,
                        ⟨12, 5, NormalAllocationType, Metadata.none⟩]⟩],
       turnNum := 0, isFinal := false }, [2, 1]⟩,
    ⟨{ chainId := 9001, participants := [1, 2], channelNonce := 0,
       appDefinition := 0, challengeDuration := 45, appData := [],
       outcome := [⟨0, [⟨11, 5, NormalAllocationType, Metadata.none⟩,
                        ⟨12, 5, NormalAllocationType, Metadata.none⟩]⟩],
       turnNum := 5, isFinal := true }, [1]⟩]⟩

/-- Counterexample for C5: this channel's post-fund round is incomplete, yet
`getStatusFromChannel` reports `Closing`, not `Proposed` — the
final-signed-by-me check takes precedence over the post-fund check. -/
theorem getStatusFromChannel_cex :
    exClosingChannel.postFundComplete = false ∧
    getStatusFromChannel exClosingChannel = ChannelStatus.Closing := by
  exact ⟨by decide, by decide⟩

/-- C5 (amended): the status projection is derived with the final-state
checks taking precedence: Complete iff a final state is signed by me and
fully supported; Closing iff a final state is signed by me but none is
fully supported; Proposed iff no final state is signed by me and the
post-fund round is incomplete; Ready iff no final state is signed by me and
the post-fund round is complete.  A channel with an incomplete post-fund
round is thus reported Proposed only when no final state is signed by
me. -/
theorem getStatusFromChannel_characterisation (c : Channel) :
    (getStatusFromChannel c = ChannelStatus.Complete ↔
      FinalSignedByMeP c ∧ FinalCompletedP c) ∧
    (getStatusFromChannel c = ChannelStatus.Closing ↔
      FinalSignedByMeP c ∧ ¬ FinalCompletedP c) ∧
    (getStatusFromChannel c = ChannelStatus.Proposed ↔
      ¬ FinalSignedByMeP c ∧ ¬ PostFundCompleteP c) ∧
    (getStatusFromChannel c = ChannelStatus.Ready ↔
      ¬ FinalSignedByMeP c ∧ PostFundCompleteP c) := by
  rw [← finalSignedByMe_iff, ← finalCompleted_iff, ← postFundComplete_iff]
  unfold getStatusFromChannel
  by_cases h1 : c.finalSignedByMe = true <;>
    by_cases h2 : c.finalCompleted = true <;>
    by_cases h3 : c.postFundComplete = true <;>
    simp [h1, h2, h3]

/-- The channel part of a TypeScript `State`
(`nitro-protocol/src/contract/state.ts`): fixed parameters including the
participant list. -/
structure TsChannel : Type where
  chainId : ℕ
  participants : List Address
  channelNonce : ℕ
deriving DecidableEq, Repr

/-- The TypeScript `State` as the transaction creators consume it. -/
structure TsState : Type where
  channel : TsChannel
  turnNum : ℕ
  isFinal : Bool
deriving DecidableEq, Repr

/-- An ethers `Signature`, opaque to the transaction creators. -/
abbrev TsSignature : Type := ℕ

/-- `getFixedPart(state)`: the turn-independent channel parameters. -/
structure FixedPart : Type where
  chainId : ℕ
  participants : List Address
  channelNonce : ℕ
deriving DecidableEq, Repr

def getFixedPart (s : TsState) : FixedPart :=
  ⟨s.channel.chainId, s.channel.participants, s.channel.channelNonce⟩

/-- `getVariablePart(state)`: the per-turn data. -/
structure VariablePart : Type where
  turnNum : ℕ
  isFinal : Bool
deriving DecidableEq, Repr

def getVariablePart (s : TsState) : VariablePart := ⟨s.turnNum, s.isFinal⟩

/-- Modelled from the spec: the challenger's signature over the challenge
message is external ECDSA crypto; its value is irrelevant to the claims, so
it is modelled as an opaque constant function. -/
def signChallengeMessage (_states : List TsState) (_pk : String) : TsSignature := 0

/-- The ABI-encoded call data handed to the adjudicator: an injective
encoding of the `challenge` argument tuple. -/
structure ChallengeCallData : Type where
  fixedPart : FixedPart
  variableParts : List VariablePart
  signatures : List TsSignature
  whoSignedWhat : List ℕ
  challengerSignature : TsSignature
deriving DecidableEq, Repr

/-- An ethers `TransactionRequest` carrying encoded call data. -/
structure TransactionRequest : Type where
  data : ChallengeCallData
deriving DecidableEq, Repr

/-- `createChallengeTransaction` (`force-move.ts` lines 17–55): reject an
empty state list, reject a signature list whose length differs from the
first state's participant list, otherwise encode the challenge call. -/
def createChallengeTransaction (states : List TsState)
    (signatures : List TsSignature) (whoSignedWhat : List ℕ)
    (challengerPrivateKey : String) : Except String TransactionRequest :=
  match states with
  | [] => Except.error "No states provided"
  | s0 :: _ =>
    if s0.channel.participants.length ≠ signatures.length then
      Except.error "Participants and signatures need to be the same length"
    else
      Except.ok ⟨⟨getFixedPart s0, states.map getVariablePart, signatures,
        whoSignedWhat, signChallengeMessage states challengerPrivateKey⟩⟩

/-- `states.reduce((s1, s2) => (s1.turnNum >= s2.turnNum ? s1 : s2),
states[0])`: the state with the largest turn number (ties keep the
earlier one). -/
def lastStateOf (states : List TsState) (s0 : TsState) : TsState :=
  states.foldl (fun s1 s2 => if s2.turnNum ≤ s1.turnNum then s1 else s2) s0

/-- The `conclude` argument tuple
`[fixedPart, latestVariablePart, numStates, whoSignedWhat, signatures]`. -/
structure ConcludeCallArgs : Type where
  fixedPart : FixedPart
  latestVariablePart : VariablePart
  numStates : ℕ
  whoSignedWhat : List ℕ
  signatures : List TsSignature
deriving DecidableEq, Repr

/-- `concludeArgs` (`force-move.ts` lines 111–135): the same two sanity
checks, then the argument tuple for `conclude`. -/
def concludeArgs (states : List TsState) (signatures : List TsSignature)
    (whoSignedWhat : List ℕ) : Except String ConcludeCallArgs :=
  match states with
  | [] => Except.error "No states provided"
  | s0 :: _ =>
    if s0.channel.participants.length ≠ signatures.length then
      Except.error "Participants and signatures need to be the same length"
    else
      Except.ok ⟨getFixedPart (lastStateOf states s0),
        getVariablePart (lastStateOf states s0), states.length,
        whoSignedWhat, signatures⟩

/-- C7: malformed input is rejected synchronously: calling
`createChallengeTransaction` or `concludeArgs` with an empty state list, or
with a signature list whose length differs from the first state's
participant list, raises an error and produces no transaction data. -/
theorem transactionCreators_reject_malformed (states : List TsState)
    (signatures : List TsSignature) (whoSignedWhat : List ℕ) (pk : String)
    (h : states = [] ∨ ∃ s0 rest, states = s0 :: rest ∧
      s0.channel.participants.length ≠ signatures.length) :
    (∃ e, createChallengeTransaction states signatures whoSignedWhat pk
      = Except.error e) ∧
    (∃ e, concludeArgs states signatures whoSignedWhat = Except.error e) := by
  rcases h with rfl | ⟨s0, rest, rfl, hlen⟩
  · exact ⟨⟨"No states provided", rfl⟩, ⟨"No states provided", rfl⟩⟩
  · constructor
    · refine ⟨"Participants and signatures need to be the same length", ?_⟩
      unfold createChallengeTransaction
      dsimp only
      rw [if_pos hlen]
    · refine ⟨"Participants and signatures need to be the same length", ?_⟩
      unfold concludeArgs
      dsimp only
      rw [if_pos hlen]

/-- Witness for C7: the empty state list and a one-participant state with
no signatures are both rejected by both creators. -/
theorem transactionCreators_reject_malformed_witness :
    ((∃ e, createChallengeTransaction [] [] [] "k" = Except.error e) ∧
     (∃ e, concludeArgs [] [] [] = Except.error e)) ∧
    ((∃ e, createChallengeTransaction [⟨⟨1, [3], 7⟩, 0, false⟩] [] [] "k"
        = Except.error e) ∧
     (∃ e, concludeArgs [⟨⟨1, [3], 7⟩, 0, false⟩] [] [] = Except.error e)) :=
  ⟨transactionCreators_reject_malformed [] [] [] "k" (Or.inl rfl),
   transactionCreators_reject_malformed [⟨⟨1, [3], 7⟩, 0, false⟩] [] [] "k"
     (Or.inr ⟨⟨⟨1, [3], 7⟩, 0, false⟩, [], rfl, by decide⟩)⟩

/-- `AMOUNT_VOUCHER_PARAM` (`proxy.go` line 21). -/
def AMOUNT_VOUCHER_PARAM : String := "amount"

/-- `CHANNEL_ID_VOUCHER_PARAM` (`proxy.go` line 22). -/
def CHANNEL_ID_VOUCHER_PARAM : String := "channelId"

/-- `SIGNATURE_VOUCHER_PARAM` (`proxy.go` line 23). -/
def SIGNATURE_VOUCHER_PARAM : String := "signature"

/-- `url.Values`: the query parameters as key/value pairs (the proxy only
reads the first value per key, via `params.Get`). -/
abbrev Params : Type := List (String × String)

/-- `params.Has(k)`. -/
def Params.hasKey (ps : Params) (k : String) : Bool :=
  ps.any (fun e => e.1 = k)

/-- `params.Get(k)`: the first value for `k`, or `""`. -/
def Params.get (ps : Params) (k : String) : String :=
  ((ps.find? (fun e => e.1 = k)).map Prod.snd).getD ""

/-- The numeric value of a hex digit, `none` for other characters. -/
def hexVal (c : Char) : Option ℕ :=
  if 48 ≤ c.toNat ∧ c.toNat ≤ 57 then some (c.toNat - 48)
  else if 97 ≤ c.toNat ∧ c.toNat ≤ 102 then some (c.toNat - 97 + 10)
  else if 65 ≤ c.toNat ∧ c.toNat ≤ 70 then some (c.toNat - 65 + 10)
  else Option.none

/-- Hex digit pairs to bytes; fails on odd length or non-hex characters. -/
def hexPairsToBytes : List Char → Option (List ℕ)
  | [] => some []
  | [_] => Option.none
  | c1 :: c2 :: rest =>
    match hexVal c1, hexVal c2, hexPairsToBytes rest with
    | some h, some lo, some bs => some ((16 * h + lo) :: bs)
    | _, _, _ => Option.none

/-- `hexutil.MustDecode` (go-ethereum): decodes a `0x`-prefixed hex string
into bytes, and panics — modelled by `none` — when the prefix is missing or
the rest is not valid even-length hex. -/
def hexMustDecode (s : String) : Option (List ℕ) :=
  match s.data with
  | '0' :: 'x' :: rest => hexPairsToBytes rest
  | _ => Option.none

/-- `crypto.Signature`: the R‖S‖V split of a 65-byte signature. -/
structure CryptoSignature : Type where
  r : List ℕ
  s : List ℕ
  v : ℕ
deriving DecidableEq, Repr

/-- Modelled from the spec: `crypto.SplitSignature` lives outside `src/`;
it slices the concatenated signature as `R = sig[:32]`, `S = sig[32:64]`,
`V = sig[64]`, so input shorter than 65 bytes makes the Go slicing panic
(modelled by `none`). -/
def splitSignature (bytes : List ℕ) : Option CryptoSignature :=
  if bytes.length < 65 then Option.none
  else some ⟨bytes.take 32, (bytes.drop 32).take 32, bytes.getD 64 0⟩

/-- `common.HexToHash` (go-ethereum): total — it decodes what hex digits it
can and pads/truncates to 32 bytes, never failing.  The claims never
inspect the resulting value, so it is modelled as reading the leading hex
digits after an optional `0x` prefix. -/
def hexToHashModel (s : String) : Destination :=
  let ds := match s.data with
    | '0' :: 'x' :: rest => rest
    | l => l
  (ds.takeWhile (fun c => (hexVal c).isSome)).foldl
    (fun acc c => 16 * acc + (hexVal c).getD 0) 0

/-- Is `c` a decimal digit? -/
def isDigitChar (c : Char) : Bool :=
  48 ≤ c.toNat && c.toNat ≤ 57

/-- The value of a decimal digit run. -/
def digitsVal (cs : List Char) : ℤ :=
  cs.foldl (fun acc c => 10 * acc + ((c.toNat : ℤ) - 48)) 0

/-- `math/big.Int.SetString(s, 10)` as `parseVoucher` uses it: `Int.scan`
reads an optional sign and then the longest run of decimal digits into the
receiver; trailing garbage only makes the *returned* ok-flag false, which
`parseVoucher` ignores, so the receiver keeps the value of the longest
(optionally signed) leading digit run — `0` when there is none. -/
def setStringValue (s : String) : ℤ :=
  match s.data with
  | '-' :: rest => -(digitsVal (rest.takeWhile isDigitChar))
  | '+' :: rest => digitsVal (rest.takeWhile isDigitChar)
  | l => digitsVal (l.takeWhile isDigitChar)

/-- `payments.Voucher` as the proxy constructs it. -/
structure Voucher : Type where
  channelId : Destination
  amount : ℤ
  signature : CryptoSignature
deriving DecidableEq, Repr

/-- The possible outcomes of `parseVoucher`: an error return, a Go panic
(inside `hexutil.MustDecode` or the signature split), or a voucher. -/
inductive ParseResult : Type
  | err (msg : String) : ParseResult
  | panicked : ParseResult
  | ok (v : Voucher) : ParseResult
deriving DecidableEq, Repr

/-- `parseVoucher` (`proxy.go` lines 145–167), translated clause by clause:
three `Has` checks, then the voucher is built from `HexToHash`,
`SetString` and `SplitSignature(MustDecode(...))`. -/
def parseVoucher (ps : Params) : ParseResult :=
  if ¬ ps.hasKey CHANNEL_ID_VOUCHER_PARAM then
    ParseResult.err "a valid channel id must be provided"
  else if ¬ ps.hasKey AMOUNT_VOUCHER_PARAM then
    ParseResult.err "a valid amount must be provided"
  else if ¬ ps.hasKey SIGNATURE_VOUCHER_PARAM then
    ParseResult.err "a valid signature must be provided"
  else
    match hexMustDecode (ps.get SIGNATURE_VOUCHER_PARAM) with
    | Option.none => ParseResult.panicked
    | some bytes =>
      match splitSignature bytes with
      | Option.none => ParseResult.panicked
      | some sig =>
        ParseResult.ok ⟨hexToHashModel (ps.get CHANNEL_ID_VOUCHER_PARAM),
          setStringValue (ps.get AMOUNT_VOUCHER_PARAM), sig⟩

/-- `removeVoucherParams` (`proxy.go` lines 170–177): drop the three voucher
keys from the query. -/
def removeVoucherParams (ps : Params) : Params :=
  ps.filter (fun e => e.1 ≠ CHANNEL_ID_VOUCHER_PARAM ∧
    e.1 ≠ SIGNATURE_VOUCHER_PARAM ∧ e.1 ≠ AMOUNT_VOUCHER_PARAM)

/-- The raw query of the incoming request, as `url.ParseQuery` sees it:
either malformed (bad percent-encoding, `ParseQuery` errors) or a parsed
parameter list. -/
inductive RawQuery : Type
  | malformed : RawQuery
  | parsed (ps : Params) : RawQuery

/-- What `ServeHTTP` does with a request: write an error response with the
given status code, forward the request (with the given remaining query
parameters) to the destination server, or panic. -/
inductive ServeOutcome : Type
  | errorResponse (code : ℕ) : ServeOutcome
  | forwarded (ps : Params) : ServeOutcome
  | panicked : ServeOutcome
deriving DecidableEq, Repr

/-- `http.StatusBadRequest`. -/
def StatusBadRequest : ℕ := 400

/-- `http.StatusPaymentRequired`. -/
def StatusPaymentRequired : ℕ := 402

/-- `ReversePaymentProxy.ServeHTTP` (`proxy.go` lines 98–132):
`receiveVoucher` stands for the RPC call `p.nitroClient.ReceiveVoucher`,
returning the voucher's delta or an error. -/
def serveHTTP (expectedPaymentAmount : ℤ)
    (receiveVoucher : Voucher → Except String ℤ) (raw : RawQuery) :
    ServeOutcome :=
  match raw with
  | RawQuery.malformed => ServeOutcome.errorResponse StatusBadRequest
  | RawQuery.parsed params =>
    match parseVoucher params with
    | ParseResult.err _ => ServeOutcome.errorResponse StatusPaymentRequired
    | ParseResult.panicked => ServeOutcome.panicked
    | ParseResult.ok v =>
      match receiveVoucher v with
      | Except.error _ => ServeOutcome.errorResponse StatusPaymentRequired
      | Except.ok delta =>
        if delta < expectedPaymentAmount then
          ServeOutcome.errorResponse StatusPaymentRequired
        else
          ServeOutcome.forwarded (removeVoucherParams params)

/-- Does the signature parameter decode without panicking: valid
`0x`-prefixed hex of at least 65 bytes? -/
def sigDecodes (s : String) : Bool :=
  match hexMustDecode s with
  | some bytes => decide (65 ≤ bytes.length)
  | Option.none => false

/-- The amount carried by a successfully parsed voucher. -/
def parsedAmount : ParseResult → Option ℤ
  | ParseResult.ok v => some v.amount
  | _ => Option.none

/-- A well-formed 65-byte signature parameter: `0x` followed by 130 hex
digits. -/
def exSigHex : String := "0x" ++ String.mk (List.replicate 130 'a')

/-- Fixture for C9: all three parameters present, the amount only partially
numeric. -/
def exVoucherParamsPartial : Params :=
  [("channelId", "0xab"), ("amount", "12x"), ("signature", exSigHex)]

/-- Fixture for C8/C9: all three parameters present but the signature is not
valid hex, so `hexutil.MustDecode` panics. -/
def exVoucherParamsBadSig : Params :=
  [("channelId", "0xab"), ("amount", "5"), ("signature", "zz")]

/-- Counterexample for C9: with all three parameters present, `parseVoucher`
does not always return a voucher — a non-hex signature parameter makes it
panic rather than return — and a present but non-numeric amount parameter
`"12x"` yields a voucher whose amount is 12 (the leading digit run), not
0. -/
theorem parseVoucher_cex :
    parsedAmount (parseVoucher exVoucherParamsPartial) = some 12 ∧
    parseVoucher exVoucherParamsBadSig = ParseResult.panicked := by
  exact ⟨by decide, by decide⟩

/-- C9 (amended): `parseVoucher` returns an error iff one of the channelId,
amount or signature parameters is absent.  When all three are present it
returns a voucher provided the signature parameter decodes
(`0x`-prefixed hex of at least 65 bytes) — and panics otherwise; the
voucher's amount is the value `big.Int.SetString` leaves behind: the
longest optionally-signed leading decimal-digit run of the amount
parameter, 0 when there is none. -/
theorem parseVoucher_characterisation (ps : Params) :
    ((ps.hasKey CHANNEL_ID_VOUCHER_PARAM = false ∨
      ps.hasKey AMOUNT_VOUCHER_PARAM = false ∨
      ps.hasKey SIGNATURE_VOUCHER_PARAM = false) ↔
      ∃ e, parseVoucher ps = ParseResult.err e) ∧
    (ps.hasKey CHANNEL_ID_VOUCHER_PARAM = true →
     ps.hasKey AMOUNT_VOUCHER_PARAM = true →
     ps.hasKey SIGNATURE_VOUCHER_PARAM = true →
     (sigDecodes (ps.get SIGNATURE_VOUCHER_PARAM) = true →
        ∃ sig, parseVoucher ps = ParseResult.ok
          ⟨hexToHashModel (ps.get CHANNEL_ID_VOUCHER_PARAM),
           setStringValue (ps.get AMOUNT_VOUCHER_PARAM), sig⟩) ∧
     (sigDecodes (ps.get SIGNATURE_VOUCHER_PARAM) = false →
        parseVoucher ps = ParseResult.panicked)) := by
  by_cases h1 : ps.hasKey CHANNEL_ID_VOUCHER_PARAM = true
  case neg =>
    refine ⟨⟨fun _ => ⟨"a valid channel id must be provided", ?_⟩,
      fun _ => Or.inl (Bool.eq_false_iff.mpr h1)⟩, fun hc => absurd hc h1⟩
    unfold parseVoucher
    rw [if_pos h1]
  case pos =>
    by_cases h2 : ps.hasKey AMOUNT_VOUCHER_PARAM = true
    case neg =>
      refine ⟨⟨fun _ => ⟨"a valid amount must be provided", ?_⟩,
        fun _ => Or.inr (Or.inl (Bool.eq_false_iff.mpr h2))⟩,
        fun _ hc => absurd hc h2⟩
      unfold parseVoucher
      rw [if_neg (not_not_intro h1), if_pos h2]
    case pos =>
      by_cases h3 : ps.hasKey SIGNATURE_VOUCHER_PARAM = true
      case neg =>
        refine ⟨⟨fun _ => ⟨"a valid signature must be provided", ?_⟩,
          fun _ => Or.inr (Or.inr (Bool.eq_false_iff.mpr h3))⟩,
          fun _ _ hc => absurd hc h3⟩
        unfold parseVoucher
        rw [if_neg (not_not_intro h1), if_neg (not_not_intro h2), if_pos h3]
      case pos =>
        cases hdec : hexMustDecode (ps.get SIGNATURE_VOUCHER_PARAM) with
        | none =>
          have hpv : parseVoucher ps = ParseResult.panicked := by
            unfold parseVoucher
            rw [if_neg (not_not_intro h1), if_neg (not_not_intro h2),
              if_neg (not_not_intro h3), hdec]
          have hsd : sigDecodes (ps.get SIGNATURE_VOUCHER_PARAM) = false := by
            unfold sigDecodes
            rw [hdec]
          refine ⟨⟨?_, ?_⟩, fun _ _ _ => ⟨?_, fun _ => hpv⟩⟩
          · rintro (hh | hh | hh) <;> simp_all
          · rintro ⟨e, he⟩
            rw [hpv] at he
            cases he
          · intro hsdt
            rw [hsd] at hsdt
            cases hsdt
        | some bytes =>
          by_cases hlen : bytes.length < 65
          case pos =>
            have hsplit : splitSignature bytes = Option.none := by
              unfold splitSignature
              rw [if_pos hlen]
            have hpv : parseVoucher ps = ParseResult.panicked := by
              unfold parseVoucher
              rw [if_neg (not_not_intro h1), if_neg (not_not_intro h2),
                if_neg (not_not_intro h3), hdec]
              dsimp only
              rw [hsplit]
            have hsd : sigDecodes (ps.get SIGNATURE_VOUCHER_PARAM) = false := by
              unfold sigDecodes
              rw [hdec]
              simpa using hlen
            refine ⟨⟨?_, ?_⟩, fun _ _ _ => ⟨?_, fun _ => hpv⟩⟩
            · rintro (hh | hh | hh) <;> simp_all
            · rintro ⟨e, he⟩
              rw [hpv] at he
              cases he
            · intro hsdt
              rw [hsd] at hsdt
              cases hsdt
          case neg =>
            have hsplit : splitSignature bytes
                = some ⟨bytes.take 32, (bytes.drop 32).take 32, bytes.getD 64 0⟩ := by
              unfold splitSignature
              rw [if_neg hlen]
            have hpv : parseVoucher ps = ParseResult.ok
                ⟨hexToHashModel (ps.get CHANNEL_ID_VOUCHER_PARAM),
                 setStringValue (ps.get AMOUNT_VOUCHER_PARAM),
                 ⟨bytes.take 32, (bytes.drop 32).take 32, bytes.getD 64 0⟩⟩ := by
              unfold parseVoucher
              rw [if_neg (not_not_intro h1), if_neg (not_not_intro h2),
                if_neg (not_not_intro h3), hdec]
              dsimp only
              rw [hsplit]
            have hsd : sigDecodes (ps.get SIGNATURE_VOUCHER_PARAM) = true := by
              unfold sigDecodes
              rw [hdec]
              simpa using Nat.le_of_not_lt hlen
            refine ⟨⟨?_, ?_⟩, fun _ _ _ => ⟨fun _ => ⟨_, hpv⟩, ?_⟩⟩
            · rintro (hh | hh | hh) <;> simp_all
            · rintro ⟨e, he⟩
              rw [hpv] at he
              cases he
            · intro hsdf
              rw [hsd] at hsdf
              cases hsdf

/-- Fixture: a fully well-formed paying request, with an extra `file`
parameter that must survive forwarding. -/
def exGoodParams : Params :=
  [("channelId", "0xab"), ("amount", "5"), ("signature", exSigHex),
   ("file", "f.txt")]

/-- Witness for C9's amended claim: the well-formed fixture parses into a
voucher carrying amount 5, and the bad-signature fixture panics. -/
theorem parseVoucher_characterisation_witness :
    (∃ sig, parseVoucher exGoodParams = ParseResult.ok
      ⟨hexToHashModel (exGoodParams.get CHANNEL_ID_VOUCHER_PARAM),
       setStringValue (exGoodParams.get AMOUNT_VOUCHER_PARAM), sig⟩) ∧
    parseVoucher exVoucherParamsBadSig = ParseResult.panicked :=
  ⟨((parseVoucher_characterisation exGoodParams).2 (by decide) (by decide)
      (by decide)).1 (by decide),
   ((parseVoucher_characterisation exVoucherParamsBadSig).2 (by decide)
      (by decide) (by decide)).2 (by decide)⟩

/-- Counterexample for C8: a request whose three voucher parameters are
present but whose signature is not valid hex makes `ServeHTTP` panic inside
`parseVoucher` — it neither forwards nor writes a 400/402 error
response. -/
theorem serveHTTP_cex :
    serveHTTP 0 (fun _ => Except.ok 0) (RawQuery.parsed exVoucherParamsBadSig)
      = ServeOutcome.panicked := by decide

/-- C8 (amended): `ServeHTTP` forwards the request, with the three voucher
parameters removed, iff the query parses, the parameters parse into a
voucher, `ReceiveVoucher` succeeds, and the returned delta is at least
`expectedPaymentAmount`; a malformed query gets a 400 response, a missing
parameter, a `ReceiveVoucher` error or an insufficient delta get a 402
response — except that voucher parameters whose signature does not decode
make the handler panic, writing no response and forwarding nothing. -/
theorem serveHTTP_characterisation (expected : ℤ)
    (recv : Voucher → Except String ℤ) (raw : RawQuery) :
    (∀ ps', serveHTTP expected recv raw = ServeOutcome.forwarded ps' ↔
      ∃ params v delta, raw = RawQuery.parsed params ∧
        parseVoucher params = ParseResult.ok v ∧
        recv v = Except.ok delta ∧ expected ≤ delta ∧
        ps' = removeVoucherParams params) ∧
    (raw = RawQuery.malformed →
      serveHTTP expected recv raw = ServeOutcome.errorResponse StatusBadRequest) ∧
    (∀ params e, raw = RawQuery.parsed params →
      parseVoucher params = ParseResult.err e →
      serveHTTP expected recv raw = ServeOutcome.errorResponse StatusPaymentRequired) ∧
    (∀ params v e, raw = RawQuery.parsed params →
      parseVoucher params = ParseResult.ok v → recv v = Except.error e →
      serveHTTP expected recv raw = ServeOutcome.errorResponse StatusPaymentRequired) ∧
    (∀ params v delta, raw = RawQuery.parsed params →
      parseVoucher params = ParseResult.ok v → recv v = Except.ok delta →
      delta < expected →
      serveHTTP expected recv raw = ServeOutcome.errorResponse StatusPaymentRequired) ∧
    (∀ params, raw = RawQuery.parsed params →
      parseVoucher params = ParseResult.panicked →
      serveHTTP expected recv raw = ServeOutcome.panicked) := by
  cases raw with
  | malformed =>
    refine ⟨?_, fun _ => rfl, ?_, ?_, ?_, ?_⟩
    · intro ps'
      constructor
      · intro h; cases h
      · rintro ⟨params, v, delta, h, _⟩; cases h
    · rintro _ _ h; cases h
    · rintro _ _ _ h; cases h
    · rintro _ _ _ h; cases h
    · rintro _ h; cases h
  | parsed params =>
    have hred : serveHTTP expected recv (RawQuery.parsed params)
        = match parseVoucher params with
          | ParseResult.err _ => ServeOutcome.errorResponse StatusPaymentRequired
          | ParseResult.panicked => ServeOutcome.panicked
          | ParseResult.ok v =>
            match recv v with
            | Except.error _ => ServeOutcome.errorResponse StatusPaymentRequired
            | Except.ok delta =>
              if delta < expected then
                ServeOutcome.errorResponse StatusPaymentRequired
              else
                ServeOutcome.forwarded (removeVoucherParams params) := rfl
    refine ⟨?_, fun h => RawQuery.noConfusion h, ?_, ?_, ?_, ?_⟩
    · intro ps'
      constructor
      · intro h
        rw [hred] at h
        cases hpv : parseVoucher params with
        | err e => rw [hpv] at h; cases h
        | panicked => rw [hpv] at h; cases h
        | ok v =>
          rw [hpv] at h
          dsimp only at h
          cases hrv : recv v with
          | error e => rw [hrv] at h; cases h
          | ok delta =>
            rw [hrv] at h
            dsimp only at h
            by_cases hlt : delta < expected
            · rw [if_pos hlt] at h; cases h
            · rw [if_neg hlt] at h
              cases h
              exact ⟨params, v, delta, rfl, hpv, hrv, le_of_not_lt hlt, rfl⟩
      · rintro ⟨params', v, delta, hp, hpv, hrv, hle, rfl⟩
        cases hp
        simp only [hred, hpv, hrv, if_neg (not_lt_of_le hle)]
    · rintro params' e hp hpv
      cases hp
      simp only [hred, hpv]
    · rintro params' v e hp hpv hrv
      cases hp
      simp only [hred, hpv, hrv]
    · rintro params' v delta hp hpv hrv hlt
      cases hp
      simp only [hred, hpv, hrv, if_pos hlt]
    · rintro params' hp hpv
      cases hp
      simp only [hred, hpv]

/-- The RPC client's `ReceiveVoucher` standing in as returning delta 1 for
every voucher. -/
def exReceive : Voucher → Except String ℤ := fun _ => Except.ok 1

/-- Witness for C8's amended claim: the well-formed paying request is
forwarded with exactly the `file` parameter left, and a malformed query
string gets a 400 response. -/
theorem serveHTTP_characterisation_witness :
    serveHTTP 1 exReceive (RawQuery.parsed exGoodParams)
      = ServeOutcome.forwarded [("file", "f.txt")] ∧
    serveHTTP 1 exReceive RawQuery.malformed
      = ServeOutcome.errorResponse StatusBadRequest :=
  ⟨((serveHTTP_characterisation 1 exReceive (RawQuery.parsed exGoodParams)).1
      [("file", "f.txt")]).mpr
    ⟨exGoodParams,
     ⟨hexToHashModel "0xab", 5,
      ⟨List.replicate 32 170, List.replicate 32 170, 170⟩⟩, 1, rfl,
     by decide, rfl, le_refl 1, by decide⟩,
   (serveHTTP_characterisation 1 exReceive RawQuery.malformed).2.1 rfl⟩

/-- A JSON value as Go's `encoding/json` decodes it into `interface{}`:
numbers become `float64` (the source comment notes this explicitly); the
parsed number's exact value is modelled as a rational. -/
inductive JsonValue : Type
  | null : JsonValue
  | boolean (b : Bool) : JsonValue
  | number (q : ℚ) : JsonValue
  | string (s : String) : JsonValue
  | array (elems : List JsonValue) : JsonValue
  | object (fields : List (String × JsonValue)) : JsonValue

/-- Go map lookup `request[k]` on the unmarshalled JSON object. -/
def jsonLookup (fields : List (String × JsonValue)) (k : String) :
    Option JsonValue :=
  (fields.find? (fun e => e.1 = k)).map Prod.snd

/-- The check `fRequestId == float64(uint64(fRequestId))` (`part_000`
line 234): among the values a `float64` can hold, the test passes exactly
for the integers in `[0, 2^64)` (any such float converts to `uint64` and
back unchanged; negative and too-large values do not survive the round
trip). -/
def isUint64Exact (q : ℚ) : Bool :=
  q.den = 1 && decide (0 ≤ q.num) && decide (q.num < 18446744073709551616)

/-- The result of `validateJsonrpcRequest`: an error response
(`vr.Error != nil`), or the validated id and method. -/
inductive ValidateResult : Type
  | invalid : ValidateResult
  | valid (id : ℕ) (method : String) : ValidateResult
deriving DecidableEq, Repr

/-- `validateJsonrpcRequest` (`part_000` lines 215–258), translated check
for check: the id must type-assert to a number that round-trips through
`uint64`, the jsonrpc field must be the string `"2.0"`, and the method
field must be a string; each failure produces an error response
(`invalid`). -/
def validateJsonrpcRequest (fields : List (String × JsonValue)) :
    ValidateResult :=
  match jsonLookup fields "id" with
  | some (JsonValue.number q) =>
    if isUint64Exact q then
      match jsonLookup fields "jsonrpc" with
      | some (JsonValue.string s) =>
        if s = "2.0" then
          match jsonLookup fields "method" with
          | some (JsonValue.string m) => ValidateResult.valid q.num.toNat m
          | _ => ValidateResult.invalid
        else ValidateResult.invalid
      | _ => ValidateResult.invalid
    else ValidateResult.invalid
  | _ => ValidateResult.invalid

/-- The request body as `handlerV1` (`part_000` lines 77–95) sees it:
invalid JSON (`json.Valid` fails), valid JSON that is not an object
(`json.Unmarshal` into a map fails), or a JSON object. -/
inductive RpcInput : Type
  | invalidJson : RpcInput
  | nonObjectJson : RpcInput
  | objectJson (fields : List (String × JsonValue)) : RpcInput

/-- What `handlerV1` does with a request: return the parse-error response,
return a validation-error response, or reach the method-dispatch switch
with the validated method name. -/
inductive HandlerOutcome : Type
  | parseError : HandlerOutcome
  | validationError : HandlerOutcome
  | reachedDispatch (method : String) : HandlerOutcome
deriving DecidableEq, Repr

/-- `handlerV1` up to the dispatch switch: invalid JSON yields the parse
error, a failed unmarshal or validation yields the validation error
response, and only a validated request reaches the method switch. -/
def handlerV1 (input : RpcInput) : HandlerOutcome :=
  match input with
  | RpcInput.invalidJson => HandlerOutcome.parseError
  | RpcInput.nonObjectJson => HandlerOutcome.validationError
  | RpcInput.objectJson fields =>
    match validateJsonrpcRequest fields with
    | ValidateResult.invalid => HandlerOutcome.validationError
    | ValidateResult.valid _ m => HandlerOutcome.reachedDispatch m

/-- C10: `validateJsonrpcRequest` accepts a request iff its id field is a
JSON number whose value equals an unsigned 64-bit integer exactly, its
jsonrpc field is the string "2.0", and its method field is a string; every
request violating any of these gets an error response and is never
dispatched to a node method. -/
theorem validateJsonrpcRequest_acceptance (fields : List (String × JsonValue)) :
    ((∃ i m, validateJsonrpcRequest fields = ValidateResult.valid i m) ↔
      ((∃ q, jsonLookup fields "id" = some (JsonValue.number q) ∧
         isUint64Exact q = true) ∧
       jsonLookup fields "jsonrpc" = some (JsonValue.string "2.0") ∧
       (∃ m, jsonLookup fields "method" = some (JsonValue.string m)))) ∧
    (validateJsonrpcRequest fields = ValidateResult.invalid →
      handlerV1 (RpcInput.objectJson fields) = HandlerOutcome.validationError) := by
  refine ⟨?_, fun h => by simp only [handlerV1, h]⟩
  constructor
  · rintro ⟨i, m, h⟩
    unfold validateJsonrpcRequest at h
    split at h
    · rename_i q heq
      split at h
      · rename_i hu
        split at h
        · rename_i s heq2
          split at h
          · rename_i hs
            split at h
            · rename_i m' heq3
              subst hs
              exact ⟨⟨q, heq, hu⟩, heq2, m', heq3⟩
            · cases h
          · cases h
        · cases h
      · cases h
    · cases h
  · rintro ⟨⟨q, hid2, hu⟩, hjr2, m, hm2⟩
    refine ⟨q.num.toNat, m, ?_⟩
    unfold validateJsonrpcRequest
    rw [hid2]
    dsimp only
    rw [if_pos hu, hjr2]
    dsimp only
    rw [if_pos rfl, hm2]

/-- Fixture: a well-formed JSON-RPC request. -/
def exGoodRpcRequest : List (String × JsonValue) :=
  [("id", JsonValue.number 1), ("jsonrpc", JsonValue.string "2.0"),
   ("method", JsonValue.string "get_address")]

/-- Fixture: a request whose id is a JSON string. -/
def exStringIdRequest : List (String × JsonValue) :=
  [("id", JsonValue.string "1"), ("jsonrpc", JsonValue.string "2.0"),
   ("method", JsonValue.string "get_address")]

/-- Fixture: a request whose id is a negative number (fails the uint64
round trip). -/
def exNegativeIdRequest : List (String × JsonValue) :=
  [("id", JsonValue.number (-3)), ("jsonrpc", JsonValue.string "2.0"),
   ("method", JsonValue.string "get_address")]

/-- Witness for C10: the well-formed request is accepted; a string id and a
negative id are rejected and never reach the dispatch switch. -/
theorem validateJsonrpcRequest_acceptance_witness :
    (∃ i m, validateJsonrpcRequest exGoodRpcRequest = ValidateResult.valid i m) ∧
    handlerV1 (RpcInput.objectJson exStringIdRequest)
      = HandlerOutcome.validationError ∧
    handlerV1 (RpcInput.objectJson exNegativeIdRequest)
      = HandlerOutcome.validationError :=
  ⟨(validateJsonrpcRequest_acceptance exGoodRpcRequest).1.mpr
      ⟨⟨1, rfl, by decide⟩, rfl, "get_address", rfl⟩,
   (validateJsonrpcRequest_acceptance exStringIdRequest).2 rfl,
   (validateJsonrpcRequest_acceptance exNegativeIdRequest).2 (by decide)⟩

end GoNitro
